import Mathlib

set_option maxHeartbeats 1000000

/-!
Verification development for the Wox plugin runtime.

The Go sources embedded here:
  - the WebSearch system plugin (Query, QueryFallback, replaceVariables,
    indexWebSearchIcon) from the setting/plugin test bundle;
  - the AI Chat system plugin (loadChats, getResultGroup, Query and its
    Delete Chat action) from wox.core/plugin/system/chat/chat.go;
  - the HTTP handlers handleSettingPluginUpdate, handlePluginDisable,
    handlePluginEnable and handleQueryIcon from wox.core/ui/router.go;
  - the plugin-setting JSON (de)serialization, whose implementation is not
    part of the visible sources and is therefore modelled from the spec.

Go strings are modelled as Lean String, machine integers (int64 scores and
timestamps) as Int, and effectful calls (SaveSetting, icon fetches, the
query parser) as explicit state passing or function parameters.
-/

/-! ## Go string primitives -/

/-- Model of Go strings.Split with a one-character separator (both call
sites in the embedded sources split on a single character). -/
def splitChar (sep : Char) : List Char → List (List Char)
  | [] => [[]]
  | c :: rest =>
    match splitChar sep rest with
    | [] => [[]]
    | w :: ws => if c = sep then [] :: w :: ws else (c :: w) :: ws

/-- Go strings.Split at the String level. -/
def goSplit (s : String) (sep : Char) : List String :=
  (splitChar sep s.data).map (fun w => String.mk w)

/-- Go strings.Join. -/
def goJoin (parts : List String) (sep : String) : String :=
  String.intercalate sep parts

/-- Go strings.ToLower (case mapping modelled on the ASCII range, which is
what every embedded call site compares). -/
def goToLower (s : String) : String :=
  String.mk (s.data.map Char.toLower)

/-- Go strings.ToUpper (ASCII range, as above). -/
def goToUpper (s : String) : String :=
  String.mk (s.data.map Char.toUpper)

/-- Fuelled scanner behind goReplaceAll: replaces the leftmost,
non-overlapping occurrences of old, left to right, exactly as Go
strings.ReplaceAll does.  Each step consumes one unit of fuel and at least
one character, so fuel equal to the input length never runs out. -/
def replaceFuel (old new : List Char) : Nat → List Char → List Char
  | 0, s => s
  | Nat.succ fuel, s =>
    match s with
    | [] => []
    | c :: rest =>
      if old ≠ [] ∧ List.isPrefixOf old (c :: rest) then
        new ++ replaceFuel old new fuel (List.drop (old.length - 1) rest)
      else
        c :: replaceFuel old new fuel rest

/-- Go strings.ReplaceAll. -/
def goReplaceAll (s old new : String) : String :=
  String.mk (replaceFuel old.data new.data s.data.length s.data)

/-! ## WebSearch plugin (system plugin WebSearch) -/

/-- Model of plugin.WoxImage: only the fields the embedded code reads. -/
structure WoxImage where
  ImageType : String := ""
  ImageData : String := ""
deriving DecidableEq, Repr

/-- Default icon of the WebSearch plugin (the SVG payload is irrelevant to
every claim; only its identity matters). -/
def webSearchIcon : WoxImage :=
  { ImageType := "svg", ImageData := "websearch-default-icon" }

/-- One configured web search entry. -/
structure webSearch where
  Urls : List String
  Title : String
  Keyword : String
  IsFallback : Bool
  Icon : WoxImage
  Enabled : Bool
deriving DecidableEq, Repr

/-- Model of plugin.Query restricted to the field the WebSearch plugin
reads. -/
structure WSQuery where
  RawQuery : String
deriving DecidableEq, Repr

/-- Model of plugin.QueryResult restricted to the fields the WebSearch
claims mention (the Search action's side effects are not modelled). -/
structure QueryResult where
  Title : String
  Score : Int
  Icon : WoxImage
deriving DecidableEq, Repr

/-- WebSearchPlugin.replaceVariables: three sequential ReplaceAll calls. -/
def replaceVariables (text query : String) : String :=
  let r1 := goReplaceAll text "{query}" query
  let r2 := goReplaceAll r1 "{lower_query}" (goToLower query)
  goReplaceAll r2 "{upper_query}" (goToUpper query)

/-- Result built for one matching web search entry (shared shape of the
Query and QueryFallback loop bodies). -/
def mkWebSearchResult (search : webSearch) (q : String) : QueryResult :=
  { Title := replaceVariables search.Title q, Score := 100, Icon := search.Icon }

/-- Loop body of WebSearchPlugin.Query over r.webSearches. -/
def wsQueryLoop (triggerKeyword otherQuery : String) : List webSearch → List QueryResult
  | [] => []
  | search :: rest =>
    if search.IsFallback || !search.Enabled then
      wsQueryLoop triggerKeyword otherQuery rest
    else if goToLower search.Keyword == goToLower triggerKeyword then
      mkWebSearchResult search otherQuery :: wsQueryLoop triggerKeyword otherQuery rest
    else
      wsQueryLoop triggerKeyword otherQuery rest

/-- WebSearchPlugin.Query. -/
def WebSearchPlugin.Query (webSearches : List webSearch) (query : WSQuery) : List QueryResult :=
  let queries := goSplit query.RawQuery ' '
  if queries.length ≤ 1 then []
  else
    wsQueryLoop (queries.headD "") (goJoin queries.tail " ") webSearches

/-- Loop body of WebSearchPlugin.QueryFallback over r.webSearches. -/
def wsFallbackLoop (rawQuery : String) : List webSearch → List QueryResult
  | [] => []
  | search :: rest =>
    if !search.Enabled then
      wsFallbackLoop rawQuery rest
    else if !search.IsFallback then
      wsFallbackLoop rawQuery rest
    else
      mkWebSearchResult search rawQuery :: wsFallbackLoop rawQuery rest

/-- WebSearchPlugin.QueryFallback. -/
def WebSearchPlugin.QueryFallback (webSearches : List webSearch) (query : WSQuery) : List QueryResult :=
  wsFallbackLoop query.RawQuery webSearches

/-- Remainder text of a raw query: the tokens after the trigger keyword
joined by the separator, as computed inside WebSearchPlugin.Query. -/
def otherQueryOf (query : WSQuery) : String :=
  goJoin (goSplit query.RawQuery ' ').tail " "

/-- Trigger keyword of a raw query, as computed inside
WebSearchPlugin.Query (the token list of a Go Split is never empty). -/
def triggerKeywordOf (query : WSQuery) : String :=
  (goSplit query.RawQuery ' ').headD ""

/-- Fuelled one-pass scanner behind simulReplaceVariables. -/
def simulFuel (q : String) : Nat → List Char → List Char
  | 0, s => s
  | Nat.succ fuel, s =>
    match s with
    | [] => []
    | c :: rest =>
      if List.isPrefixOf "{query}".data (c :: rest) then
        q.data ++ simulFuel q fuel (List.drop ("{query}".data.length - 1) rest)
      else if List.isPrefixOf "{lower_query}".data (c :: rest) then
        (goToLower q).data ++ simulFuel q fuel (List.drop ("{lower_query}".data.length - 1) rest)
      else if List.isPrefixOf "{upper_query}".data (c :: rest) then
        (goToUpper q).data ++ simulFuel q fuel (List.drop ("{upper_query}".data.length - 1) rest)
      else
        c :: simulFuel q fuel rest

/-- Simultaneous one-pass reading of the claimed placeholder substitution:
every occurrence of the placeholders present in the original text is
replaced (verbatim, lowercased, uppercased respectively) and text produced
by a substitution is never rescanned.  Stated from the claim's words, for
comparison with the source's replaceVariables. -/
def simulReplaceVariables (text query : String) : String :=
  String.mk (simulFuel query text.data.length text.data)

/-- URL whose icon WebSearchPlugin.indexWebSearchIcon requests: the head
of the sorted Urls list (slices.Sort then search.Urls[0]); none models the
Go index-out-of-range panic on an empty Urls list, which validated
configurations never produce. -/
def indexWebSearchIconUrl (search : webSearch) : Option String :=
  (List.insertionSort (fun a b : String => a ≤ b) search.Urls).head?

/-- WebSearchPlugin.indexWebSearchIcon with the icon fetch
(getWebsiteIconWithCache) passed as a function parameter; a fetch error is
modelled as none and makes the function fall back to webSearchIcon. -/
def indexWebSearchIcon (getIcon : String → Option WoxImage) (search : webSearch) :
    Option WoxImage :=
  match indexWebSearchIconUrl search with
  | none => none
  | some url =>
    match getIcon url with
    | some img => some img
    | none => some webSearchIcon

/-! ## AI Chat plugin (wox.core/plugin/system/chat/chat.go) -/

/-- Model of common.AIChatData restricted to the fields the chat claims
read (conversations, model and CreatedAt are not consulted by loadChats,
getResultGroup or the Delete Chat action). -/
structure AIChatData where
  Id : String
  Title : String
  UpdatedAt : Int
deriving DecidableEq, Repr

/-- Ordering used by loadChats: chats[i].UpdatedAt > chats[j].UpdatedAt as
a sort.Slice less function, i.e. the sorted output is in non-increasing
UpdatedAt order. -/
def chatMoreRecent (a b : AIChatData) : Prop :=
  b.UpdatedAt ≤ a.UpdatedAt

instance : DecidableRel chatMoreRecent :=
  fun a b => Int.decLe b.UpdatedAt a.UpdatedAt

instance : IsTotal AIChatData chatMoreRecent :=
  ⟨fun a b => le_total b.UpdatedAt a.UpdatedAt⟩

instance : IsTrans AIChatData chatMoreRecent :=
  ⟨fun _ _ _ h₁ h₂ => le_trans h₂ h₁⟩

/-- AIChatPlugin.loadChats after a successful unmarshal of the stored
JSON: Go sort.Slice is an unstable comparison sort, modelled by insertion
sort (only sortedness of the output is guaranteed by Go). -/
def loadChats (decoded : List AIChatData) : List AIChatData :=
  List.insertionSort chatMoreRecent decoded

/-- Two's-complement wraparound into the signed 64-bit range, modelling
Go int64 arithmetic: the offsets are 2 to the 63rd and 2 to the 64th
power, written as numerals. -/
def wrapInt64 (x : Int) : Int :=
  (x + 9223372036854775808) % 18446744073709551616 - 9223372036854775808

/-- Go int64 subtraction a - b, wrapping on overflow. -/
def int64Sub (a b : Int) : Int :=
  wrapInt64 (a - b)

/-- AIChatPlugin.getResultGroup evaluated at the single instant now
(GetSystemTimestamp, milliseconds); the subtraction is Go int64 and
wraps on overflow. -/
def getResultGroup (now : Int) (chat : AIChatData) : String × Int :=
  if int64Sub now chat.UpdatedAt < 1000 * 60 * 60 * 24 then ("Today", 90)
  else if int64Sub now chat.UpdatedAt < 1000 * 60 * 60 * 24 * 2 then ("Yesterday", 80)
  else ("History", 10)

/-- Name of the MetadataFeatureIgnoreAutoScore feature flag (the constant
value lives outside the visible sources; only membership in the feature
list is claimed). -/
def MetadataFeatureIgnoreAutoScore : String := "ignoreAutoScore"

/-- Feature names declared by AIChatPlugin.GetMetadata: ignore auto score,
AI support, and the preview width ratio feature (the latter two names are
inlined; their spellings are irrelevant to the claims). -/
def aiChatPluginFeatures : List String :=
  [MetadataFeatureIgnoreAutoScore, "ai", "ResultPreviewWidthRatio"]

/-- Model of plugin.QueryResult restricted to the fields the chat claims
mention. -/
structure ChatQueryResult where
  Title : String
  Group : String
  GroupScore : Int
deriving DecidableEq, Repr

/-- New Chat result built by AIChatPlugin.getNewChatPreviewData (preview
payload, actions and ids are not modelled). -/
def getNewChatPreviewData : ChatQueryResult :=
  { Title := "New Chat", Group := "New Chat", GroupScore := 1000 }

/-- Result built by AIChatPlugin.Query for one stored chat. -/
def chatResult (now : Int) (chat : AIChatData) : ChatQueryResult :=
  { Title := chat.Title,
    Group := (getResultGroup now chat).1,
    GroupScore := (getResultGroup now chat).2 }

/-- AIChatPlugin.Query evaluated at instant now: the New Chat result
followed by one result per stored chat, in the order of r.chats (the
preview marshalling, which cannot fail in this model, is omitted). -/
def AIChatPlugin.Query (now : Int) (chats : List AIChatData) : List ChatQueryResult :=
  getNewChatPreviewData :: chats.map (chatResult now)

/-- State touched by the Delete Chat action: the in-memory chat list and
the log of chat lists handed to SaveSetting by saveChats. -/
structure ChatState where
  chats : List AIChatData
  savedChatLists : List (List AIChatData)
deriving DecidableEq, Repr

/-- Delete Chat action of the result generated for the chat at index i:
r.chats = append(r.chats[:i], r.chats[i+1:]...) followed by
saveChats(ctx). -/
def deleteChatAction (st : ChatState) (i : Nat) : ChatState :=
  let newChats := st.chats.take i ++ st.chats.drop (i + 1)
  { chats := newChats, savedChatLists := st.savedChatLists ++ [newChats] }

/-! ## HTTP router handlers (wox.core/ui/router.go) -/

/-- Model of one definition.PluginSettingDefinitionItem as read by
handleSettingPluginUpdate: Value holds the GetKey result when the Go Value
interface is non-nil, plus the IsPlatformSpecific flag. -/
structure SettingDefinitionItem where
  Value : Option String
  IsPlatformSpecific : Bool
deriving DecidableEq, Repr

/-- Model of plugin.Metadata restricted to the fields the router handlers
read. -/
structure PluginMetadata where
  Id : String
  Icon : String
  SettingDefinitions : List SettingDefinitionItem
deriving DecidableEq, Repr

/-- Model of setting.PluginSetting: disabled flag, overridden trigger
keywords, and the arbitrary key to value settings map (the Go HashMap is
modelled as an association list). -/
structure PluginSetting where
  Disabled : Bool
  TriggerKeywords : List String
  CustomizedSettings : List (String × String)
deriving DecidableEq, Repr

/-- Model of plugin.Instance restricted to the fields the router handlers
read and mutate. -/
structure PluginInstance where
  Metadata : PluginMetadata
  Setting : PluginSetting
  PluginDirectory : String
deriving DecidableEq, Repr

/-- Response written by a router handler (writeSuccessResponse or
writeErrorResponse). -/
inductive RouterResponse
  | success
  | error (msg : String)
deriving DecidableEq, Repr

/-- Persistence effects performed by the handlers:
findPlugin.SaveSetting(ctx) and API.SaveSetting(ctx, key, value,
isPlatformSpecific).  SaveSetting is modelled as always succeeding; its
possible failure only changes the response text of the disable and enable
handlers, which no claim mentions. -/
inductive SettingEffect
  | instanceSettingSaved (pluginId : String) (s : PluginSetting)
  | apiSettingSaved (pluginId key value : String) (isPlatformSpecific : Bool)
deriving DecidableEq, Repr

/-- Decoded request body of handleSettingPluginUpdate. -/
structure KeyValuePair where
  PluginId : String
  Key : String
  Value : String
deriving DecidableEq, Repr

/-- Replace the first element satisfying p by f of it; Go lo.Find returns
a pointer to the first match, which the handlers mutate in place. -/
def updateFirst {α : Type} (p : α → Bool) (f : α → α) : List α → List α
  | [] => []
  | x :: rest => if p x then f x :: rest else x :: updateFirst p f rest

/-- Loop of handleSettingPluginUpdate over the metadata setting
definitions resolving isPlatformSpecific for a key: the first definition
with a non-nil value whose key matches wins, false when none matches. -/
def resolveIsPlatformSpecific (defs : List SettingDefinitionItem) (key : String) : Bool :=
  match defs with
  | [] => false
  | d :: rest =>
    match d.Value with
    | some k => if k == key then d.IsPlatformSpecific else resolveIsPlatformSpecific rest key
    | none => resolveIsPlatformSpecific rest key

/-- handleSettingPluginUpdate: body is none when the JSON decode fails.
Returns the response, the updated instance list, and the SaveSetting
effects. -/
def handleSettingPluginUpdate (instances : List PluginInstance)
    (body : Option KeyValuePair) :
    RouterResponse × List PluginInstance × List SettingEffect :=
  match body with
  | none => (RouterResponse.error "decode error", instances, [])
  | some kv =>
    match instances.find? (fun i => i.Metadata.Id == kv.PluginId) with
    | none => (RouterResponse.error "can't find plugin", instances, [])
    | some inst =>
      if kv.Key == "Disabled" then
        let updated :=
          { inst with Setting := { inst.Setting with Disabled := kv.Value == "true" } }
        (RouterResponse.success,
         updateFirst (fun i => i.Metadata.Id == kv.PluginId) (fun _ => updated) instances,
         [SettingEffect.instanceSettingSaved kv.PluginId updated.Setting])
      else if kv.Key == "TriggerKeywords" then
        let updated :=
          { inst with Setting :=
              { inst.Setting with TriggerKeywords := goSplit kv.Value ',' } }
        (RouterResponse.success,
         updateFirst (fun i => i.Metadata.Id == kv.PluginId) (fun _ => updated) instances,
         [SettingEffect.instanceSettingSaved kv.PluginId updated.Setting])
      else
        (RouterResponse.success, instances,
         [SettingEffect.apiSettingSaved kv.PluginId kv.Key kv.Value
            (resolveIsPlatformSpecific inst.Metadata.SettingDefinitions kv.Key)])

/-- handlePluginDisable: idField is none when the body has no id field. -/
def handlePluginDisable (instances : List PluginInstance) (idField : Option String) :
    RouterResponse × List PluginInstance × List SettingEffect :=
  match idField with
  | none => (RouterResponse.error "id is empty", instances, [])
  | some pluginId =>
    match instances.find? (fun i => i.Metadata.Id == pluginId) with
    | none => (RouterResponse.error "can't find plugin", instances, [])
    | some inst =>
      let updated := { inst with Setting := { inst.Setting with Disabled := true } }
      (RouterResponse.success,
       updateFirst (fun i => i.Metadata.Id == pluginId) (fun _ => updated) instances,
       [SettingEffect.instanceSettingSaved pluginId updated.Setting])

/-- handlePluginEnable: identical to handlePluginDisable except that the
Disabled flag is cleared. -/
def handlePluginEnable (instances : List PluginInstance) (idField : Option String) :
    RouterResponse × List PluginInstance × List SettingEffect :=
  match idField with
  | none => (RouterResponse.error "id is empty", instances, [])
  | some pluginId =>
    match instances.find? (fun i => i.Metadata.Id == pluginId) with
    | none => (RouterResponse.error "can't find plugin", instances, [])
    | some inst =>
      let updated := { inst with Setting := { inst.Setting with Disabled := false } }
      (RouterResponse.success,
       updateFirst (fun i => i.Metadata.Id == pluginId) (fun _ => updated) instances,
       [SettingEffect.instanceSettingSaved pluginId updated.Setting])

/-- Model of common.PlainQuery restricted to an opaque payload (its fields
are only passed through to NewQuery). -/
structure PlainQuery where
  QueryText : String
deriving DecidableEq, Repr

/-- Collaborators of handleQueryIcon passed as functions:
GetPluginManager().NewQuery (ok none models a query that resolves to no
single plugin instance), common.ParseWoxImage and common.ConvertIcon. -/
structure QueryIconEnv where
  newQuery : PlainQuery → Except String (Option PluginInstance)
  parseWoxImage : String → Except String WoxImage
  convertIcon : WoxImage → String → WoxImage

/-- Response written by handleQueryIcon. -/
inductive IconResponse
  | success (img : WoxImage)
  | error (msg : String)
deriving DecidableEq, Repr

/-- handleQueryIcon: queryField is none when the body has no query field,
and parsePlainQuery returns none on malformed JSON. -/
def handleQueryIcon (env : QueryIconEnv)
    (parsePlainQuery : String → Option PlainQuery)
    (queryField : Option String) : IconResponse :=
  match queryField with
  | none => IconResponse.error "query is empty"
  | some raw =>
    match parsePlainQuery raw with
    | none => IconResponse.error "unmarshal error"
    | some plainQuery =>
      match env.newQuery plainQuery with
      | Except.error _ => IconResponse.success {}
      | Except.ok none => IconResponse.success {}
      | Except.ok (some pluginInstance) =>
        match env.parseWoxImage pluginInstance.Metadata.Icon with
        | Except.error _ => IconResponse.success {}
        | Except.ok iconImg =>
          IconResponse.success (env.convertIcon iconImg pluginInstance.PluginDirectory)

/-! ## Plugin setting serialization (Wox/setting, modelled from the spec) -/

/-- Modelled from the spec: minimal JSON value universe for the
plugin-setting payloads.  The (de)serialization implementation of
CustomizedPluginSettings and PluginSetting is missing from the visible
sources; only the tests exercising it are present, so the whole section is
modelled from the spec's description of the settings schema. -/
inductive Json
  | str (s : String)
  | boolean (b : Bool)
  | arr (elems : List Json)
  | obj (fields : List (String × Json))

/-- Modelled from the spec: the declared plugin-setting item types. -/
inductive PluginSettingType
  | head
  | textbox
  | checkbox
  | select
  | newline
  | label
deriving DecidableEq, Repr

/-- Payload of a head item. -/
structure PluginSettingValueHead where
  Content : String
deriving DecidableEq, Repr

/-- Payload of a textbox item. -/
structure PluginSettingValueTextBox where
  Key : String
  Value : String
  Label : String
  Suffix : String
deriving DecidableEq, Repr

/-- Payload of a checkbox item. -/
structure PluginSettingValueCheckBox where
  Key : String
  Value : String
  Label : String
deriving DecidableEq, Repr

/-- One option of a select item. -/
structure PluginSettingValueSelectOption where
  Label : String
  Value : String
deriving DecidableEq, Repr

/-- Payload of a select item. -/
structure PluginSettingValueSelect where
  Key : String
  Value : String
  Label : String
  Options : List PluginSettingValueSelectOption
deriving DecidableEq, Repr

/-- Payload of a label item. -/
structure PluginSettingValueLabel where
  Content : String
deriving DecidableEq, Repr

/-- Modelled from the spec: one item of a CustomizedPluginSettings list,
tagged by its declared Type. -/
inductive PluginSettingItem
  | head (v : PluginSettingValueHead)
  | textbox (v : PluginSettingValueTextBox)
  | checkbox (v : PluginSettingValueCheckBox)
  | select (v : PluginSettingValueSelect)
  | newline
  | label (v : PluginSettingValueLabel)
deriving DecidableEq, Repr

/-- Declared Type tag of an item. -/
def PluginSettingItem.settingType : PluginSettingItem → PluginSettingType
  | .head _ => .head
  | .textbox _ => .textbox
  | .checkbox _ => .checkbox
  | .select _ => .select
  | .newline => .newline
  | .label _ => .label

/-- Key declared by an item, when it has one. -/
def PluginSettingItem.declaredKey : PluginSettingItem → Option String
  | .textbox v => some v.Key
  | .checkbox v => some v.Key
  | .select v => some v.Key
  | _ => none

/-- Stored Value of an item, when it has one. -/
def PluginSettingItem.storedValue : PluginSettingItem → Option String
  | .textbox v => some v.Value
  | .checkbox v => some v.Value
  | .select v => some v.Value
  | _ => none

/-- Modelled from the spec: CustomizedPluginSettings.GetValue scans the
items in declaration order and returns the stored Value of the first item
declaring key k. -/
def GetValue (items : List PluginSettingItem) (k : String) : Option String :=
  match items with
  | [] => none
  | it :: rest =>
    match it.declaredKey with
    | some k2 => if k2 == k then it.storedValue else GetValue rest k
    | none => GetValue rest k

/-- Field lookup in a JSON object. -/
def jsonField (j : Json) (name : String) : Option Json :=
  match j with
  | .obj fields => (fields.find? (fun f => f.1 == name)).map (fun f => f.2)
  | _ => none

/-- String payload of a JSON value. -/
def jsonStr : Json → Option String
  | .str s => some s
  | _ => none

/-- String field of a JSON object, empty when missing (the Go zero
value). -/
def jsonStrField (j : Json) (name : String) : String :=
  ((jsonField j name).bind jsonStr).getD ""

/-- Boolean payload of a JSON value. -/
def jsonBoolOpt : Json → Option Bool
  | .boolean b => some b
  | _ => none

/-- Boolean field of a JSON object, false when missing (the Go zero
value). -/
def jsonBoolField (j : Json) (name : String) : Bool :=
  ((jsonField j name).bind jsonBoolOpt).getD false

/-- Serialization of one select option. -/
def encodeSelectOption (o : PluginSettingValueSelectOption) : Json :=
  .obj [("Label", .str o.Label), ("Value", .str o.Value)]

/-- Deserialization of one select option (missing fields decode to the Go
zero value). -/
def decodeSelectOption (j : Json) : PluginSettingValueSelectOption :=
  { Label := jsonStrField j "Label", Value := jsonStrField j "Value" }

/-- Name of a Type tag on the wire. -/
def typeName : PluginSettingType → String
  | .head => "head"
  | .textbox => "textbox"
  | .checkbox => "checkbox"
  | .select => "select"
  | .newline => "newline"
  | .label => "label"

/-- Serialization of an item Value payload. -/
def encodeItemValue : PluginSettingItem → Json
  | .head v => .obj [("Content", .str v.Content)]
  | .textbox v =>
      .obj [("Key", .str v.Key), ("Value", .str v.Value),
        ("Label", .str v.Label), ("Suffix", .str v.Suffix)]
  | .checkbox v =>
      .obj [("Key", .str v.Key), ("Value", .str v.Value), ("Label", .str v.Label)]
  | .select v =>
      .obj [("Key", .str v.Key), ("Value", .str v.Value), ("Label", .str v.Label),
        ("Options", .arr (v.Options.map encodeSelectOption))]
  | .newline => .obj []
  | .label v => .obj [("Content", .str v.Content)]

/-- Serialization of one item as a Type and Value object. -/
def encodeItem (it : PluginSettingItem) : Json :=
  .obj [("Type", .str (typeName it.settingType)), ("Value", encodeItemValue it)]

/-- Deserialization of a select item Options field. -/
def decodeOptions (j : Json) : List PluginSettingValueSelectOption :=
  match jsonField j "Options" with
  | some (.arr xs) => xs.map decodeSelectOption
  | _ => []

/-- Deserialization of one item, dispatching on the Type tag; none models
a Go unmarshal error on an unknown type. -/
def decodeItem (j : Json) : Option PluginSettingItem :=
  let v := (jsonField j "Value").getD (.obj [])
  match (jsonField j "Type").bind jsonStr with
  | some "head" => some (.head { Content := jsonStrField v "Content" })
  | some "textbox" =>
      some (.textbox
        { Key := jsonStrField v "Key", Value := jsonStrField v "Value",
          Label := jsonStrField v "Label", Suffix := jsonStrField v "Suffix" })
  | some "checkbox" =>
      some (.checkbox
        { Key := jsonStrField v "Key", Value := jsonStrField v "Value",
          Label := jsonStrField v "Label" })
  | some "select" =>
      some (.select
        { Key := jsonStrField v "Key", Value := jsonStrField v "Value",
          Label := jsonStrField v "Label", Options := decodeOptions v })
  | some "newline" => some .newline
  | some "label" => some (.label { Content := jsonStrField v "Content" })
  | _ => none

/-- Deserialization of an item list, failing when any element fails. -/
def decodeItems : List Json → Option (List PluginSettingItem)
  | [] => some []
  | j :: rest =>
    match decodeItem j, decodeItems rest with
    | some it, some its => some (it :: its)
    | _, _ => none

/-- Unmarshalling a CustomizedPluginSettings JSON array. -/
def decodeCustomizedPluginSettings (j : Json) : Option (List PluginSettingItem) :=
  match j with
  | .arr elems => decodeItems elems
  | _ => none

/-- Marshalling a CustomizedPluginSettings list. -/
def encodeCustomizedPluginSettings (items : List PluginSettingItem) : Json :=
  .arr (items.map encodeItem)

/-- Marshalling a PluginSetting (the HashMap of customized settings is
modelled as an association list). -/
def encodePluginSetting (ps : PluginSetting) : Json :=
  .obj [("Disabled", .boolean ps.Disabled),
        ("TriggerKeywords", .arr (ps.TriggerKeywords.map Json.str)),
        ("CustomizedSettings",
          .obj (ps.CustomizedSettings.map (fun kv => (kv.1, Json.str kv.2))))]

/-- Deserialization of a JSON string array (non-strings are dropped, which
never happens on encoder output). -/
def decodeStrList (j : Json) : List String :=
  match j with
  | .arr xs => xs.filterMap jsonStr
  | _ => []

/-- Deserialization of a JSON object as string pairs. -/
def decodeStrPairs (j : Json) : List (String × String) :=
  match j with
  | .obj fields => fields.map (fun f => (f.1, (jsonStr f.2).getD ""))
  | _ => []

/-- Unmarshalling a PluginSetting. -/
def decodePluginSetting (j : Json) : Option PluginSetting :=
  match j with
  | .obj _ =>
    some { Disabled := jsonBoolField j "Disabled",
           TriggerKeywords :=
             decodeStrList ((jsonField j "TriggerKeywords").getD (.arr [])),
           CustomizedSettings :=
             decodeStrPairs ((jsonField j "CustomizedSettings").getD (.obj [])) }
  | _ => none

/-! ## Verification -/

theorem wsQueryLoop_eq_filter_map (tk oq : String) (ws : List webSearch) :
    wsQueryLoop tk oq ws =
      (ws.filter fun s =>
          !s.IsFallback && s.Enabled && (goToLower s.Keyword == goToLower tk)).map
        (fun s => mkWebSearchResult s oq) := by
  induction ws with
  | nil => rfl
  | cons s rest ih =>
    by_cases hf : s.IsFallback
    · simp [wsQueryLoop, List.filter, hf, ih]
    · by_cases he : s.Enabled
      · by_cases hk : goToLower s.Keyword == goToLower tk
        · simp [wsQueryLoop, List.filter, hf, he, hk, ih]
        · simp [wsQueryLoop, List.filter, hf, he, hk, ih]
      · simp [wsQueryLoop, List.filter, hf, he, ih]

theorem wsFallbackLoop_eq_filter_map (raw : String) (ws : List webSearch) :
    wsFallbackLoop raw ws =
      (ws.filter fun s => s.Enabled && s.IsFallback).map
        (fun s => mkWebSearchResult s raw) := by
  induction ws with
  | nil => rfl
  | cons s rest ih =>
    by_cases he : s.Enabled
    · by_cases hf : s.IsFallback
      · simp [wsFallbackLoop, List.filter, he, hf, ih]
      · simp [wsFallbackLoop, List.filter, he, hf, ih]
    · simp [wsFallbackLoop, List.filter, he, ih]

/-- C1: WebSearchPlugin.Query never returns a result derived from an entry
with IsFallback true or Enabled false, and WebSearchPlugin.QueryFallback
returns exactly one result per entry with Enabled true and IsFallback true,
in configuration order; fallback and non-fallback entries are never mixed
in either operation's output. -/
theorem websearch_query_fallback_partition (ws : List webSearch) (q : WSQuery) :
    (∀ res ∈ WebSearchPlugin.Query ws q,
      ∃ s ∈ ws, s.IsFallback = false ∧ s.Enabled = true ∧
        res = mkWebSearchResult s (otherQueryOf q)) ∧
    WebSearchPlugin.QueryFallback ws q =
      (ws.filter fun s => s.Enabled && s.IsFallback).map
        (fun s => mkWebSearchResult s q.RawQuery) := by
  constructor
  · intro res hres
    unfold WebSearchPlugin.Query at hres
    by_cases hlen : (goSplit q.RawQuery ' ').length ≤ 1
    · simp [hlen] at hres
    · rw [if_neg hlen, wsQueryLoop_eq_filter_map] at hres
      obtain ⟨s, hs, rfl⟩ := List.mem_map.mp hres
      have hmem := List.mem_of_mem_filter hs
      have hprop := List.of_mem_filter hs
      simp only [Bool.and_eq_true, Bool.not_eq_true'] at hprop
      exact ⟨s, hmem, hprop.1.1, hprop.1.2, rfl⟩
  · exact wsFallbackLoop_eq_filter_map q.RawQuery ws

/-- Closed witness for websearch_query_fallback_partition. -/
theorem websearch_query_fallback_partition_witness :
    let s0 : webSearch :=
      { Urls := ["https://example.com"], Title := "Search {query}", Keyword := "g",
        IsFallback := false, Icon := webSearchIcon, Enabled := true }
    let q0 : WSQuery := { RawQuery := "g cats" }
    ∃ s ∈ [s0], s.IsFallback = false ∧ s.Enabled = true ∧
      mkWebSearchResult s0 "cats" = mkWebSearchResult s (otherQueryOf q0) := by
  intro s0 q0
  have h := (websearch_query_fallback_partition [s0] q0).1
  exact h (mkWebSearchResult s0 "cats") (by decide)

/-- C2 (counterexample): the claim reads the title substitution as a
simultaneous replacement of the placeholders occurring in the entry's
Title; the code applies three sequential ReplaceAll calls, so a
placeholder introduced by the first substitution is substituted again.
With Title "{query}" and remainder "{upper_query}" the code returns title
"{UPPER_QUERY}" where the claim predicts "{upper_query}". -/
theorem websearch_query_title_counterexample :
    (WebSearchPlugin.Query
        [{ Urls := [], Title := "{query}", Keyword := "g", IsFallback := false,
           Icon := webSearchIcon, Enabled := true }]
        { RawQuery := "g {upper_query}" }).map (fun r => r.Title) = ["{UPPER_QUERY}"] ∧
    simulReplaceVariables "{query}" "{upper_query}" = "{upper_query}" ∧
    ("{UPPER_QUERY}" : String) ≠ "{upper_query}" := by
  refine ⟨?_, ?_, ?_⟩ <;> decide

/-- C2 (amended): WebSearchPlugin.Query returns no results when the raw
query splits into at most one token; otherwise it returns one result per
enabled, non-fallback entry whose keyword matches the first token
case-insensitively, in configuration order, the title being the entry's
Title with the placeholders substituted sequentially by replaceVariables
({query} first, then {lower_query}, then {upper_query}, each a left-to-right
replace-all over the previous result). -/
theorem websearch_query_characterization (ws : List webSearch) (q : WSQuery) :
    ((goSplit q.RawQuery ' ').length ≤ 1 → WebSearchPlugin.Query ws q = []) ∧
    (1 < (goSplit q.RawQuery ' ').length →
      WebSearchPlugin.Query ws q =
        (ws.filter fun s =>
            !s.IsFallback && s.Enabled &&
              (goToLower s.Keyword == goToLower (triggerKeywordOf q))).map
          (fun s =>
            { Title := replaceVariables s.Title (otherQueryOf q),
              Score := 100, Icon := s.Icon })) := by
  constructor
  · intro h
    simp [WebSearchPlugin.Query, h]
  · intro h
    unfold WebSearchPlugin.Query
    rw [if_neg (by omega), wsQueryLoop_eq_filter_map]
    rfl

/-- Closed witness for websearch_query_characterization. -/
theorem websearch_query_characterization_witness :
    let s0 : webSearch :=
      { Urls := [], Title := "Search {query}", Keyword := "G",
        IsFallback := false, Icon := webSearchIcon, Enabled := true }
    let q0 : WSQuery := { RawQuery := "g two words" }
    1 < (goSplit q0.RawQuery ' ').length ∧
    WebSearchPlugin.Query [s0] q0 =
      ([s0].filter fun s =>
          !s.IsFallback && s.Enabled &&
            (goToLower s.Keyword == goToLower (triggerKeywordOf q0))).map
        (fun s =>
          { Title := replaceVariables s.Title (otherQueryOf q0),
            Score := 100, Icon := s.Icon }) := by
  intro s0 q0
  exact ⟨by decide, (websearch_query_characterization [s0] q0).2 (by decide)⟩

/-- C7: every result produced by WebSearchPlugin.Query and by
WebSearchPlugin.QueryFallback has relevance score exactly 100. -/
theorem websearch_results_score_100 (ws : List webSearch) (q : WSQuery) :
    (∀ res ∈ WebSearchPlugin.Query ws q, res.Score = 100) ∧
    (∀ res ∈ WebSearchPlugin.QueryFallback ws q, res.Score = 100) := by
  constructor
  · intro res hres
    unfold WebSearchPlugin.Query at hres
    by_cases hlen : (goSplit q.RawQuery ' ').length ≤ 1
    · simp [hlen] at hres
    · rw [if_neg hlen, wsQueryLoop_eq_filter_map] at hres
      obtain ⟨s, _, rfl⟩ := List.mem_map.mp hres
      rfl
  · intro res hres
    unfold WebSearchPlugin.QueryFallback at hres
    rw [wsFallbackLoop_eq_filter_map] at hres
    obtain ⟨s, _, rfl⟩ := List.mem_map.mp hres
    rfl

/-- Closed witness for websearch_results_score_100. -/
theorem websearch_results_score_100_witness :
    (mkWebSearchResult
        { Urls := [], Title := "t", Keyword := "g", IsFallback := true,
          Icon := webSearchIcon, Enabled := true }
        "anything").Score = 100 :=
  (websearch_results_score_100
      [{ Urls := [], Title := "t", Keyword := "g", IsFallback := true,
         Icon := webSearchIcon, Enabled := true }]
      { RawQuery := "anything" }).2 _ (by decide)

theorem int64Sub_eq_of_bounded (a b : Int)
    (h₁ : -9223372036854775808 ≤ a - b) (h₂ : a - b < 9223372036854775808) :
    int64Sub a b = a - b := by
  unfold int64Sub wrapInt64
  rw [Int.emod_eq_of_lt (by omega) (by omega)]
  omega

theorem getResultGroup_snd_lt (now : Int) (chat : AIChatData) :
    (getResultGroup now chat).2 < 1000 := by
  unfold getResultGroup
  split_ifs <;> decide

theorem getResultGroup_snd_mono (now : Int) {c₁ c₂ : AIChatData}
    (h : c₂.UpdatedAt ≤ c₁.UpdatedAt)
    (hlo₁ : -9223372036854775808 ≤ now - c₁.UpdatedAt)
    (hhi₁ : now - c₁.UpdatedAt < 9223372036854775808)
    (hlo₂ : -9223372036854775808 ≤ now - c₂.UpdatedAt)
    (hhi₂ : now - c₂.UpdatedAt < 9223372036854775808) :
    (getResultGroup now c₂).2 ≤ (getResultGroup now c₁).2 := by
  unfold getResultGroup
  rw [int64Sub_eq_of_bounded now c₁.UpdatedAt hlo₁ hhi₁,
    int64Sub_eq_of_bounded now c₂.UpdatedAt hlo₂ hhi₂]
  split_ifs <;> simp_all <;> omega

/-- C3 (counterexample): the Go subtraction now - chat.UpdatedAt is int64
and wraps; a chat stored with UpdatedAt equal to the minimal int64 is at
least 48 hours old at a current clock, yet the wrapped age is negative, so
getResultGroup returns ("Today", 90) instead of the claimed
("History", 10), a chat with the later UpdatedAt 0 receives the strictly
smaller score 10, and the emission order of Query on the sorted pair has
increasing group scores. -/
theorem aichat_group_wraparound_counterexample :
    let now : Int := 1700000000000
    let ancient : AIChatData :=
      { Id := "old", Title := "old", UpdatedAt := -9223372036854775808 }
    let zero : AIChatData := { Id := "z", Title := "z", UpdatedAt := 0 }
    1000 * 60 * 60 * 24 * 2 ≤ now - ancient.UpdatedAt ∧
    getResultGroup now ancient = ("Today", 90) ∧
    getResultGroup now zero = ("History", 10) ∧
    ancient.UpdatedAt ≤ zero.UpdatedAt ∧
    (getResultGroup now zero).2 < (getResultGroup now ancient).2 ∧
    List.Sorted chatMoreRecent [zero, ancient] ∧
    ¬ List.Chain' (fun x y => y.GroupScore ≤ x.GroupScore)
        (AIChatPlugin.Query now [zero, ancient]) := by
  intro now ancient zero
  refine ⟨by decide, by decide, by decide, by decide, by decide, by decide, ?_⟩
  intro h
  have h2 := (List.chain'_cons.mp (List.chain'_cons.mp h).2).1
  revert h2
  decide

/-- C3 (amended): AIChatPlugin declares the ignore auto score feature
flag; loadChats sorts stored chats into non-increasing UpdatedAt order;
when now - UpdatedAt does not overflow int64, getResultGroup at one
instant yields ("Today", 90) for chats under 24 hours old, ("Yesterday",
80) between 24 and 48 hours, ("History", 10) otherwise; the New Chat
result's group score 1000 exceeds all three; among chats whose age does
not overflow, a later UpdatedAt never receives a smaller group score, and
Query emits results with non-increasing group scores along the emission
order. -/
theorem aichat_grouping_and_ordering :
    MetadataFeatureIgnoreAutoScore ∈ aiChatPluginFeatures ∧
    (∀ decoded : List AIChatData, List.Sorted chatMoreRecent (loadChats decoded)) ∧
    (∀ (now : Int) (chat : AIChatData),
      -9223372036854775808 ≤ now - chat.UpdatedAt →
      now - chat.UpdatedAt < 9223372036854775808 →
      (now - chat.UpdatedAt < 1000 * 60 * 60 * 24 →
        getResultGroup now chat = ("Today", 90)) ∧
      (1000 * 60 * 60 * 24 ≤ now - chat.UpdatedAt ∧
          now - chat.UpdatedAt < 1000 * 60 * 60 * 24 * 2 →
        getResultGroup now chat = ("Yesterday", 80)) ∧
      (1000 * 60 * 60 * 24 * 2 ≤ now - chat.UpdatedAt →
        getResultGroup now chat = ("History", 10))) ∧
    getNewChatPreviewData.GroupScore = 1000 ∧
    (∀ (now : Int) (chat : AIChatData),
      (getResultGroup now chat).2 < getNewChatPreviewData.GroupScore) ∧
    (∀ (now : Int) (c₁ c₂ : AIChatData), c₂.UpdatedAt ≤ c₁.UpdatedAt →
      -9223372036854775808 ≤ now - c₁.UpdatedAt →
      now - c₁.UpdatedAt < 9223372036854775808 →
      -9223372036854775808 ≤ now - c₂.UpdatedAt →
      now - c₂.UpdatedAt < 9223372036854775808 →
      (getResultGroup now c₂).2 ≤ (getResultGroup now c₁).2) ∧
    (∀ (now : Int) (chats : List AIChatData), List.Sorted chatMoreRecent chats →
      (∀ c ∈ chats, -9223372036854775808 ≤ now - c.UpdatedAt ∧
        now - c.UpdatedAt < 9223372036854775808) →
      List.Chain' (fun x y => y.GroupScore ≤ x.GroupScore)
        (AIChatPlugin.Query now chats)) := by
  refine ⟨by simp [aiChatPluginFeatures], ?_, ?_, rfl, ?_, ?_, ?_⟩
  · intro decoded
    exact List.sorted_insertionSort chatMoreRecent decoded
  · intro now chat hlo hhi
    refine ⟨fun h => ?_, fun h => ?_, fun h => ?_⟩
    · unfold getResultGroup
      rw [int64Sub_eq_of_bounded now chat.UpdatedAt hlo hhi, if_pos h]
    · unfold getResultGroup
      rw [int64Sub_eq_of_bounded now chat.UpdatedAt hlo hhi,
        if_neg (by omega), if_pos (by omega)]
    · unfold getResultGroup
      rw [int64Sub_eq_of_bounded now chat.UpdatedAt hlo hhi,
        if_neg (by omega), if_neg (by omega)]
  · intro now chat
    exact getResultGroup_snd_lt now chat
  · intro now c₁ c₂ h hlo₁ hhi₁ hlo₂ hhi₂
    exact getResultGroup_snd_mono now h hlo₁ hhi₁ hlo₂ hhi₂
  · intro now chats hs hb
    unfold AIChatPlugin.Query
    have hp : List.Pairwise (fun a b : AIChatData =>
        (chatResult now b).GroupScore ≤ (chatResult now a).GroupScore) chats := by
      refine hs.imp_of_mem ?_
      intro a b ha hbm hab
      exact getResultGroup_snd_mono now hab
        (hb a ha).1 (hb a ha).2 (hb b hbm).1 (hb b hbm).2
    have hmap : List.Chain' (fun x y => y.GroupScore ≤ x.GroupScore)
        (chats.map (chatResult now)) :=
      (List.pairwise_map.mpr hp).chain'
    refine List.chain'_cons'.mpr ⟨?_, hmap⟩
    intro y hy
    cases chats with
    | nil => simp at hy
    | cons c rest =>
      simp only [List.map_cons, List.head?_cons, Option.mem_def, Option.some.injEq] at hy
      subst hy
      exact le_of_lt (getResultGroup_snd_lt now c)

/-- Closed witness for aichat_grouping_and_ordering. -/
theorem aichat_grouping_and_ordering_witness :
    List.Sorted chatMoreRecent
      [{ Id := "a", Title := "A", UpdatedAt := 170 },
       { Id := "b", Title := "B", UpdatedAt := 50 }] ∧
    (∀ c ∈ [({ Id := "a", Title := "A", UpdatedAt := 170 } : AIChatData),
            { Id := "b", Title := "B", UpdatedAt := 50 }],
      -9223372036854775808 ≤ 200000000000 - c.UpdatedAt ∧
        200000000000 - c.UpdatedAt < 9223372036854775808) ∧
    List.Chain' (fun x y => y.GroupScore ≤ x.GroupScore)
      (AIChatPlugin.Query 200000000000
        [{ Id := "a", Title := "A", UpdatedAt := 170 },
         { Id := "b", Title := "B", UpdatedAt := 50 }]) :=
  ⟨by decide, by decide,
    aichat_grouping_and_ordering.2.2.2.2.2.2 200000000000 _ (by decide) (by decide)⟩

/-- C8: when the chat list is unchanged since Query produced its results,
the Delete Chat action of the result generated for the chat at index i
leaves r.chats equal to the previous list with exactly its i-th element
removed, and the updated list is persisted via saveChats. -/
theorem aichat_delete_chat (st : ChatState) (i : Nat) (h : i < st.chats.length) :
    (deleteChatAction st i).chats = st.chats.eraseIdx i ∧
    (deleteChatAction st i).chats.length = st.chats.length - 1 ∧
    (deleteChatAction st i).savedChatLists =
      st.savedChatLists ++ [st.chats.eraseIdx i] := by
  have he : st.chats.take i ++ st.chats.drop (i + 1) = st.chats.eraseIdx i :=
    (List.eraseIdx_eq_take_drop_succ st.chats i).symm
  refine ⟨he, ?_, ?_⟩
  · show (st.chats.take i ++ st.chats.drop (i + 1)).length = st.chats.length - 1
    rw [he, List.length_eraseIdx_of_lt h]
  · show st.savedChatLists ++ [st.chats.take i ++ st.chats.drop (i + 1)] =
      st.savedChatLists ++ [st.chats.eraseIdx i]
    rw [he]

/-- Closed witness for aichat_delete_chat. -/
theorem aichat_delete_chat_witness :
    1 < ([{ Id := "a", Title := "A", UpdatedAt := 3 },
          { Id := "b", Title := "B", UpdatedAt := 2 },
          { Id := "c", Title := "C", UpdatedAt := 1 }] : List AIChatData).length ∧
    (deleteChatAction
        { chats := [{ Id := "a", Title := "A", UpdatedAt := 3 },
                    { Id := "b", Title := "B", UpdatedAt := 2 },
                    { Id := "c", Title := "C", UpdatedAt := 1 }],
          savedChatLists := [] } 1).chats =
      ([{ Id := "a", Title := "A", UpdatedAt := 3 },
        { Id := "b", Title := "B", UpdatedAt := 2 },
        { Id := "c", Title := "C", UpdatedAt := 1 }] : List AIChatData).eraseIdx 1 :=
  ⟨by decide,
   (aichat_delete_chat
      { chats := [{ Id := "a", Title := "A", UpdatedAt := 3 },
                  { Id := "b", Title := "B", UpdatedAt := 2 },
                  { Id := "c", Title := "C", UpdatedAt := 1 }],
        savedChatLists := [] } 1 (by decide)).1⟩

/-- C9: for two webSearch values with a non-empty Urls list that differ
only in the order of their Urls, indexWebSearchIcon requests the icon for
the same URL, the least under string ordering, and therefore produces the
same icon; when the fetch fails it returns the default webSearchIcon
instead of propagating an error. -/
theorem websearch_icon_order_invariant (getIcon : String → Option WoxImage)
    (s₁ s₂ : webSearch) (hperm : s₁.Urls.Perm s₂.Urls) (hne : s₁.Urls ≠ []) :
    indexWebSearchIconUrl s₁ = indexWebSearchIconUrl s₂ ∧
    (∃ u, indexWebSearchIconUrl s₁ = some u ∧ u ∈ s₁.Urls ∧ ∀ v ∈ s₁.Urls, u ≤ v) ∧
    indexWebSearchIcon getIcon s₁ = indexWebSearchIcon getIcon s₂ ∧
    (∀ u, indexWebSearchIconUrl s₁ = some u → getIcon u = none →
      indexWebSearchIcon getIcon s₁ = some webSearchIcon) := by
  have hL : List.insertionSort (fun a b : String => a ≤ b) s₁.Urls =
      List.insertionSort (fun a b : String => a ≤ b) s₂.Urls :=
    List.eq_of_perm_of_sorted
      (((List.perm_insertionSort _ _).trans hperm).trans
        (List.perm_insertionSort _ _).symm)
      (List.sorted_insertionSort _ _) (List.sorted_insertionSort _ _)
  refine ⟨by rw [indexWebSearchIconUrl, indexWebSearchIconUrl, hL], ?_, ?_, ?_⟩
  · have hperm₁ := List.perm_insertionSort (fun a b : String => a ≤ b) s₁.Urls
    have hsorted := List.sorted_insertionSort (fun a b : String => a ≤ b) s₁.Urls
    rcases hL₁ : List.insertionSort (fun a b : String => a ≤ b) s₁.Urls with _ | ⟨u, t⟩
    · rw [hL₁] at hperm₁
      exact absurd hperm₁.symm.eq_nil hne
    · rw [hL₁] at hperm₁ hsorted
      refine ⟨u, by rw [indexWebSearchIconUrl, hL₁]; rfl, hperm₁.mem_iff.mp (by simp), ?_⟩
      intro v hv
      have hv' : v ∈ u :: t := hperm₁.mem_iff.mpr hv
      rcases List.mem_cons.mp hv' with rfl | h
      · exact le_rfl
      · exact List.rel_of_sorted_cons hsorted v h
  · rw [indexWebSearchIcon, indexWebSearchIcon, indexWebSearchIconUrl,
      indexWebSearchIconUrl, hL]
  · intro u hu hnone
    simp [indexWebSearchIcon, hu, hnone]

/-- Closed witness for websearch_icon_order_invariant. -/
theorem websearch_icon_order_invariant_witness :
    let g : String → Option WoxImage := fun _ => none
    let s₁ : webSearch := { Urls := ["b", "a"], Title := "t", Keyword := "k",
                            IsFallback := false, Icon := webSearchIcon, Enabled := true }
    let s₂ : webSearch := { Urls := ["a", "b"], Title := "t", Keyword := "k",
                            IsFallback := false, Icon := webSearchIcon, Enabled := true }
    s₁.Urls.Perm s₂.Urls ∧ s₁.Urls ≠ [] ∧
    (indexWebSearchIconUrl s₁ = indexWebSearchIconUrl s₂ ∧
     (∃ u, indexWebSearchIconUrl s₁ = some u ∧ u ∈ s₁.Urls ∧ ∀ v ∈ s₁.Urls, u ≤ v) ∧
     indexWebSearchIcon g s₁ = indexWebSearchIcon g s₂ ∧
     (∀ u, indexWebSearchIconUrl s₁ = some u → g u = none →
       indexWebSearchIcon g s₁ = some webSearchIcon)) := by
  intro g s₁ s₂
  exact ⟨by decide, by decide,
    websearch_icon_order_invariant g s₁ s₂ (by decide) (by decide)⟩

theorem updateFirst_spec {α : Type} (p : α → Bool) (l : List α) (x : α)
    (hfind : l.find? p = some x) :
    ∃ j, ∃ hj : j < l.length, l.get ⟨j, hj⟩ = x ∧ p x = true ∧
      (∀ k (hk : k < l.length), k < j → p (l.get ⟨k, hk⟩) = false) ∧
      ∀ f : α → α, updateFirst p f l = l.set j (f x) := by
  induction l with
  | nil => simp at hfind
  | cons a rest ih =>
    by_cases hpa : p a = true
    · rw [List.find?_cons_of_pos rest hpa] at hfind
      obtain rfl : a = x := by injection hfind
      exact ⟨0, by simp, rfl, hpa, fun k hk hk0 => absurd hk0 (Nat.not_lt_zero k),
        fun f => by simp [updateFirst, hpa]⟩
    · rw [List.find?_cons_of_neg rest (by simpa using hpa)] at hfind
      obtain ⟨j, hj, hget, hpx, hbefore, hupd⟩ := ih hfind
      refine ⟨j + 1, Nat.succ_lt_succ hj, ?_, hpx, ?_, ?_⟩
      · simpa [List.get_cons_succ] using hget
      · intro k hk hklt
        cases k with
        | zero =>
          simpa using Bool.eq_false_iff.mpr hpa
        | succ k' =>
          rw [List.get_cons_succ]
          exact hbefore k' (by simpa using Nat.lt_of_succ_lt_succ hk)
            (Nat.lt_of_succ_lt_succ hklt)
      · intro f
        simp [updateFirst, hpa, hupd f]

theorem resolveIsPlatformSpecific_spec (defs : List SettingDefinitionItem) (key : String) :
    resolveIsPlatformSpecific defs key =
      ((defs.find? (fun d => d.Value == some key)).map
        SettingDefinitionItem.IsPlatformSpecific).getD false := by
  induction defs with
  | nil => rfl
  | cons d rest ih =>
    rcases hv : d.Value with _ | k
    · rw [List.find?_cons_of_neg _ (by simp [hv])]
      simpa [resolveIsPlatformSpecific, hv] using ih
    · by_cases hk : k = key
      · subst hk
        rw [List.find?_cons_of_pos _ (by simp [hv])]
        simp [resolveIsPlatformSpecific, hv]
      · rw [List.find?_cons_of_neg _ (by simp [hv, hk])]
        simpa [resolveIsPlatformSpecific, hv, hk] using ih

/-- C4: for a decoded update request whose PluginId matches a registered
instance, Key "Disabled" sets the first matching instance's
Setting.Disabled to (Value == "true") and saves that setting; Key
"TriggerKeywords" sets its Setting.TriggerKeywords to Value split on ","
and saves; any other Key calls API.SaveSetting(Key, Value, p) where p is
the IsPlatformSpecific flag of the first metadata setting definition whose
key equals Key, or false if none matches; all three cases write a success
response. -/
theorem router_setting_plugin_update (instances : List PluginInstance)
    (kv : KeyValuePair) (inst : PluginInstance)
    (hfind : instances.find? (fun i => i.Metadata.Id == kv.PluginId) = some inst) :
    (handleSettingPluginUpdate instances (some kv)).1 = RouterResponse.success ∧
    inst.Metadata.Id = kv.PluginId ∧
    (kv.Key = "Disabled" →
      ∃ j, ∃ hj : j < instances.length,
        instances.get ⟨j, hj⟩ = inst ∧
        (handleSettingPluginUpdate instances (some kv)).2.1 =
          instances.set j
            { inst with Setting :=
                { inst.Setting with Disabled := kv.Value == "true" } } ∧
        (handleSettingPluginUpdate instances (some kv)).2.2 =
          [SettingEffect.instanceSettingSaved kv.PluginId
            { inst.Setting with Disabled := kv.Value == "true" }]) ∧
    (kv.Key = "TriggerKeywords" →
      ∃ j, ∃ hj : j < instances.length,
        instances.get ⟨j, hj⟩ = inst ∧
        (handleSettingPluginUpdate instances (some kv)).2.1 =
          instances.set j
            { inst with Setting :=
                { inst.Setting with TriggerKeywords := goSplit kv.Value ',' } } ∧
        (handleSettingPluginUpdate instances (some kv)).2.2 =
          [SettingEffect.instanceSettingSaved kv.PluginId
            { inst.Setting with TriggerKeywords := goSplit kv.Value ',' }]) ∧
    (kv.Key ≠ "Disabled" → kv.Key ≠ "TriggerKeywords" →
      (handleSettingPluginUpdate instances (some kv)).2.1 = instances ∧
      (handleSettingPluginUpdate instances (some kv)).2.2 =
        [SettingEffect.apiSettingSaved kv.PluginId kv.Key kv.Value
          (((inst.Metadata.SettingDefinitions.find?
              (fun d => d.Value == some kv.Key)).map
            SettingDefinitionItem.IsPlatformSpecific).getD false)]) := by
  have hpid : inst.Metadata.Id = kv.PluginId := by
    simpa using List.find?_some hfind
  refine ⟨?_, hpid, ?_, ?_, ?_⟩
  · unfold handleSettingPluginUpdate
    simp only [hfind]
    by_cases h1 : kv.Key == "Disabled" <;> by_cases h2 : kv.Key == "TriggerKeywords" <;>
      simp [h1, h2]
  · intro hkey
    obtain ⟨j, hj, hget, _, _, hupd⟩ :=
      updateFirst_spec (fun i => i.Metadata.Id == kv.PluginId) instances inst hfind
    refine ⟨j, hj, hget, ?_, ?_⟩ <;>
      · unfold handleSettingPluginUpdate
        simp [hfind, hkey, hupd]
  · intro hkey
    obtain ⟨j, hj, hget, _, _, hupd⟩ :=
      updateFirst_spec (fun i => i.Metadata.Id == kv.PluginId) instances inst hfind
    refine ⟨j, hj, hget, ?_, ?_⟩ <;>
      · unfold handleSettingPluginUpdate
        simp [hfind, hkey, hupd]
  · intro h1 h2
    constructor <;>
      · unfold handleSettingPluginUpdate
        simp [hfind, h1, h2, resolveIsPlatformSpecific_spec]

/-- Closed witness for router_setting_plugin_update. -/
theorem router_setting_plugin_update_witness :
    let defs0 : List SettingDefinitionItem :=
      [{ Value := some "opt", IsPlatformSpecific := true }]
    let inst0 : PluginInstance :=
      { Metadata := { Id := "p1", Icon := "icon1", SettingDefinitions := defs0 },
        Setting := { Disabled := false, TriggerKeywords := ["a"], CustomizedSettings := [] },
        PluginDirectory := "d1" }
    let kv0 : KeyValuePair := { PluginId := "p1", Key := "opt", Value := "v" }
    [inst0].find? (fun i => i.Metadata.Id == kv0.PluginId) = some inst0 ∧
    (handleSettingPluginUpdate [inst0] (some kv0)).1 = RouterResponse.success := by
  intro defs0 inst0 kv0
  exact ⟨by decide, (router_setting_plugin_update [inst0] kv0 inst0 (by decide)).1⟩

/-- C5: for the plugin disable and enable endpoints, a missing id field or
an id matching no registered instance yields an error response with no
instance changed; otherwise the first matching instance's Setting.Disabled
is set to true (respectively false), its setting is saved, and every other
instance's setting is unchanged. -/
theorem router_plugin_disable_enable (instances : List PluginInstance) :
    (handlePluginDisable instances none =
        (RouterResponse.error "id is empty", instances, []) ∧
      handlePluginEnable instances none =
        (RouterResponse.error "id is empty", instances, [])) ∧
    (∀ pid, instances.find? (fun i => i.Metadata.Id == pid) = none →
      handlePluginDisable instances (some pid) =
        (RouterResponse.error "can't find plugin", instances, []) ∧
      handlePluginEnable instances (some pid) =
        (RouterResponse.error "can't find plugin", instances, [])) ∧
    (∀ pid inst, instances.find? (fun i => i.Metadata.Id == pid) = some inst →
      ∃ j, ∃ hj : j < instances.length, instances.get ⟨j, hj⟩ = inst ∧
        inst.Metadata.Id = pid ∧
        (handlePluginDisable instances (some pid)).1 = RouterResponse.success ∧
        (handlePluginDisable instances (some pid)).2.1 =
          instances.set j
            { inst with Setting := { inst.Setting with Disabled := true } } ∧
        (handlePluginDisable instances (some pid)).2.2 =
          [SettingEffect.instanceSettingSaved pid
            { inst.Setting with Disabled := true }] ∧
        (handlePluginEnable instances (some pid)).1 = RouterResponse.success ∧
        (handlePluginEnable instances (some pid)).2.1 =
          instances.set j
            { inst with Setting := { inst.Setting with Disabled := false } } ∧
        (handlePluginEnable instances (some pid)).2.2 =
          [SettingEffect.instanceSettingSaved pid
            { inst.Setting with Disabled := false }] ∧
        (∀ k, k ≠ j →
          ((handlePluginDisable instances (some pid)).2.1)[k]? = instances[k]? ∧
          ((handlePluginEnable instances (some pid)).2.1)[k]? = instances[k]?)) := by
  refine ⟨⟨rfl, rfl⟩, ?_, ?_⟩
  · intro pid hnone
    constructor
    · unfold handlePluginDisable
      simp [hnone]
    · unfold handlePluginEnable
      simp [hnone]
  · intro pid inst hfind
    obtain ⟨j, hj, hget, _, _, hupd⟩ :=
      updateFirst_spec (fun i => i.Metadata.Id == pid) instances inst hfind
    have hpid : inst.Metadata.Id = pid := by
      simpa using List.find?_some hfind
    refine ⟨j, hj, hget, hpid, ?_, ?_, ?_, ?_, ?_, ?_, ?_⟩
    · unfold handlePluginDisable
      simp [hfind]
    · unfold handlePluginDisable
      simp [hfind, hupd]
    · unfold handlePluginDisable
      simp [hfind]
    · unfold handlePluginEnable
      simp [hfind]
    · unfold handlePluginEnable
      simp [hfind, hupd]
    · unfold handlePluginEnable
      simp [hfind]
    · intro k hk
      constructor
      · unfold handlePluginDisable
        simp only [hfind]
        rw [hupd]
        exact List.getElem?_set_ne (Ne.symm hk)
      · unfold handlePluginEnable
        simp only [hfind]
        rw [hupd]
        exact List.getElem?_set_ne (Ne.symm hk)

/-- Closed witness for router_plugin_disable_enable. -/
theorem router_plugin_disable_enable_witness :
    let inst0 : PluginInstance :=
      { Metadata := { Id := "p1", Icon := "", SettingDefinitions := [] },
        Setting := { Disabled := false, TriggerKeywords := [],
                     CustomizedSettings := [] },
        PluginDirectory := "" }
    ([inst0] : List PluginInstance).find? (fun i => i.Metadata.Id == "p1") =
        some inst0 ∧
    (∃ j, ∃ hj : j < ([inst0] : List PluginInstance).length,
      ([inst0] : List PluginInstance).get ⟨j, hj⟩ = inst0 ∧
      inst0.Metadata.Id = "p1" ∧
      (handlePluginDisable [inst0] (some "p1")).1 = RouterResponse.success ∧
      (handlePluginDisable [inst0] (some "p1")).2.1 =
        ([inst0] : List PluginInstance).set j
          { inst0 with Setting := { inst0.Setting with Disabled := true } } ∧
      (handlePluginDisable [inst0] (some "p1")).2.2 =
        [SettingEffect.instanceSettingSaved "p1"
          { inst0.Setting with Disabled := true }] ∧
      (handlePluginEnable [inst0] (some "p1")).1 = RouterResponse.success ∧
      (handlePluginEnable [inst0] (some "p1")).2.1 =
        ([inst0] : List PluginInstance).set j
          { inst0 with Setting := { inst0.Setting with Disabled := false } } ∧
      (handlePluginEnable [inst0] (some "p1")).2.2 =
        [SettingEffect.instanceSettingSaved "p1"
          { inst0.Setting with Disabled := false }] ∧
      (∀ k, k ≠ j →
        ((handlePluginDisable [inst0] (some "p1")).2.1)[k]? =
          ([inst0] : List PluginInstance)[k]? ∧
        ((handlePluginEnable [inst0] (some "p1")).2.1)[k]? =
          ([inst0] : List PluginInstance)[k]?)) := by
  intro inst0
  exact ⟨by decide,
    (router_plugin_disable_enable [inst0]).2.2 "p1" inst0 (by decide)⟩

/-- C10: handleQueryIcon writes an error response exactly when the query
field is missing or its JSON is malformed; with a present, well-formed
query field it writes a success response: an empty WoxImage when query
construction fails, when the query resolves to no single plugin instance,
or when the plugin's icon cannot be parsed, and the plugin's converted
icon otherwise. -/
theorem router_query_icon (env : QueryIconEnv)
    (parsePQ : String → Option PlainQuery) (queryField : Option String) :
    ((∃ msg, handleQueryIcon env parsePQ queryField = IconResponse.error msg) ↔
      (queryField = none ∨ ∃ raw, queryField = some raw ∧ parsePQ raw = none)) ∧
    (∀ raw pq, queryField = some raw → parsePQ raw = some pq →
      ((∀ e, env.newQuery pq = Except.error e →
          handleQueryIcon env parsePQ queryField = IconResponse.success {}) ∧
       (env.newQuery pq = Except.ok none →
          handleQueryIcon env parsePQ queryField = IconResponse.success {}) ∧
       (∀ inst, env.newQuery pq = Except.ok (some inst) →
          (∀ e, env.parseWoxImage inst.Metadata.Icon = Except.error e →
            handleQueryIcon env parsePQ queryField = IconResponse.success {}) ∧
          (∀ img, env.parseWoxImage inst.Metadata.Icon = Except.ok img →
            handleQueryIcon env parsePQ queryField =
              IconResponse.success (env.convertIcon img inst.PluginDirectory))))) := by
  constructor
  · constructor
    · rintro ⟨msg, hmsg⟩
      rcases queryField with _ | raw
      · exact Or.inl rfl
      · rcases hp : parsePQ raw with _ | pq
        · exact Or.inr ⟨raw, rfl, hp⟩
        · exfalso
          unfold handleQueryIcon at hmsg
          simp only [hp] at hmsg
          rcases hq : env.newQuery pq with e | oi
          · rw [hq] at hmsg
            simp at hmsg
          · rcases oi with _ | inst
            · rw [hq] at hmsg
              simp at hmsg
            · rw [hq] at hmsg
              rcases hw : env.parseWoxImage inst.Metadata.Icon with e2 | img
              · simp [hw] at hmsg
              · simp [hw] at hmsg
    · intro h
      rcases h with h | ⟨raw, hf, hp⟩
      · subst h
        exact ⟨"query is empty", rfl⟩
      · subst hf
        refine ⟨"unmarshal error", ?_⟩
        unfold handleQueryIcon
        simp [hp]
  · intro raw pq hf hp
    subst hf
    refine ⟨?_, ?_, ?_⟩
    · intro e he
      unfold handleQueryIcon
      simp [hp, he]
    · intro he
      unfold handleQueryIcon
      simp [hp, he]
    · intro inst hinst
      constructor
      · intro e he
        unfold handleQueryIcon
        simp [hp, hinst, he]
      · intro img himg
        unfold handleQueryIcon
        simp [hp, hinst, himg]

/-- Closed witness for router_query_icon. -/
theorem router_query_icon_witness :
    let env : QueryIconEnv :=
      { newQuery := fun _ => Except.ok none,
        parseWoxImage := fun s => Except.error s,
        convertIcon := fun i _ => i }
    let parsePQ : String → Option PlainQuery := fun s => some { QueryText := s }
    (some "chat" = some "chat") ∧
    parsePQ "chat" = some { QueryText := "chat" } ∧
    env.newQuery { QueryText := "chat" } = Except.ok none ∧
    handleQueryIcon env parsePQ (some "chat") = IconResponse.success {} := by
  intro env parsePQ
  exact ⟨rfl, rfl, rfl,
    ((router_query_icon env parsePQ (some "chat")).2 "chat"
      { QueryText := "chat" } rfl rfl).2.1 rfl⟩

theorem decodeSelectOption_encodeSelectOption (o : PluginSettingValueSelectOption) :
    decodeSelectOption (encodeSelectOption o) = o := rfl

theorem decodeOptions_map_encode (opts : List PluginSettingValueSelectOption) :
    (opts.map encodeSelectOption).map decodeSelectOption = opts := by
  induction opts with
  | nil => rfl
  | cons o rest ih =>
    rw [List.map_cons, List.map_cons, ih, decodeSelectOption_encodeSelectOption]

theorem decodeItem_encodeItem (it : PluginSettingItem) :
    decodeItem (encodeItem it) = some it := by
  cases it with
  | head v => rfl
  | textbox v => rfl
  | checkbox v => rfl
  | select v =>
    show some (PluginSettingItem.select
      { Key := v.Key, Value := v.Value, Label := v.Label,
        Options := (v.Options.map encodeSelectOption).map decodeSelectOption }) =
      some (PluginSettingItem.select v)
    rw [decodeOptions_map_encode]
  | newline => rfl
  | label v => rfl

theorem decodeItems_encode (items : List PluginSettingItem) :
    decodeItems (items.map encodeItem) = some items := by
  induction items with
  | nil => rfl
  | cons it rest ih =>
    simp only [List.map_cons, decodeItems, decodeItem_encodeItem, ih]

theorem filterMap_jsonStr_map (l : List String) :
    (l.map Json.str).filterMap jsonStr = l := by
  induction l with
  | nil => rfl
  | cons s rest ih => simp [jsonStr, ih]

theorem decodeStrPairs_map_encode (l : List (String × String)) :
    (l.map (fun kv => (kv.1, Json.str kv.2))).map
      (fun f => (f.1, (jsonStr f.2).getD "")) = l := by
  induction l with
  | nil => rfl
  | cons kv rest ih =>
    rw [List.map_cons, List.map_cons, ih]
    rfl

/-- C6: unmarshalling a CustomizedPluginSettings JSON array yields the
items in their original order with their declared Types and the select
item's options preserved; GetValue returns the stored Value of the first
item declaring key k; and marshalling a PluginSetting then unmarshalling
the output yields an equal Disabled flag and a CustomizedSettings map with
the same entries. -/
theorem plugin_setting_serialization_roundtrip :
    (∀ items : List PluginSettingItem,
      decodeCustomizedPluginSettings (encodeCustomizedPluginSettings items) =
        some items) ∧
    (∀ (items : List PluginSettingItem) (k : String),
      GetValue items k =
        (items.find? (fun it => it.declaredKey == some k)).bind
          PluginSettingItem.storedValue) ∧
    (∀ ps : PluginSetting, decodePluginSetting (encodePluginSetting ps) = some ps) := by
  refine ⟨?_, ?_, ?_⟩
  · intro items
    exact decodeItems_encode items
  · intro items k
    induction items with
    | nil => rfl
    | cons it rest ih =>
      rcases hk : it.declaredKey with _ | k2
      · rw [List.find?_cons_of_neg _ (by simp [hk])]
        simpa [GetValue, hk] using ih
      · by_cases hkk : (k2 == k) = true
        · rw [List.find?_cons_of_pos _ (by simp [hk, hkk])]
          simp [GetValue, hk, hkk]
        · rw [List.find?_cons_of_neg _ (by simp [hk, hkk])]
          simpa [GetValue, hk, hkk] using ih
  · intro ps
    show some
      ({ Disabled := ps.Disabled,
         TriggerKeywords := (ps.TriggerKeywords.map Json.str).filterMap jsonStr,
         CustomizedSettings :=
           (ps.CustomizedSettings.map (fun kv => (kv.1, Json.str kv.2))).map
             (fun f => (f.1, (jsonStr f.2).getD "")) } : PluginSetting) = some ps
    rw [filterMap_jsonStr_map, decodeStrPairs_map_encode]
